import Mathlib

/-!
Verification of the Permagit payment-gated backend (Express + Postgres).

This file gives a shallow embedding of the backend's core logic:
the payment ledger (`POST /payments/verify`), repository registration
(`POST /repos`), OTP ticket redemption (`POST /otp/redeem`), multisig
approval (`POST /multisig/approve`) and multisig setup
(`POST /multisig/setup`), together with the on-chain token-payment
verification helper (`verifyTokenPayment`) and the threshold helper
(`calcThreshold`).

Database tables become lists of records; a SQL transaction becomes a
pure function returning either the committed next state, or (on any
thrown error / explicit 4xx response) the original state paired with
the error tag the route reports.  Timestamps are modelled as `Nat`
(`NOW()` is passed in as a parameter), SQL `NUMERIC`/JS `BigInt` as
`Int`, nullable columns as `Option`.  Remote calls (the Solana RPC
transaction fetch, nacl signature verification) are passed in as
explicit data / oracle parameters, since they are external
collaborators of the engine.
-/

namespace Permagit

/-- Row of the `payments` table (see `initSchema`). Non-claim-relevant
columns (`usd_value`, `metadata`, `created_at`) are omitted. -/
structure Payment where
  id : String
  txSig : String
  payer : Option String
  purpose : String
  tokenAmountAtomic : Int
  status : String
  repoName : Option String
  consumedAt : Option Nat
deriving DecidableEq, Repr

/-- Row of the `repos` table (`created_at` omitted). -/
structure Repo where
  id : String
  name : String
  owner : String
  isPrivate : Bool
  isMultisig : Bool
  threshold : Option Int
  signers : List String
  paymentTx : Option String
deriving DecidableEq, Repr

/-- Row of the `otp_tokens` table (`created_at` omitted). -/
structure OtpToken where
  id : String
  repoId : String
  paymentTx : String
  otpPlain : String
  decryptKey : String
  bundleTx : String
  expiresAt : Option Nat
  usedAt : Option Nat
deriving DecidableEq, Repr

/-- Row of the `multisig_pushes` table (`created_at` omitted). -/
structure MultisigPush where
  id : String
  repoId : String
  pushTx : String
  branch : Option String
  status : String
  approvalsRequired : Int
  approvalsCount : Int
  approvedAt : Option Nat
deriving DecidableEq, Repr

/-- Row of the `multisig_signatures` table (`created_at` omitted). -/
structure MultisigSignature where
  id : String
  multisigPushId : String
  signer : String
  signatureB64 : String
deriving DecidableEq, Repr

/-- The Postgres database state: one list per table. The `pushes`
table is untouched by every operation the claims mention and is
omitted. -/
structure DB where
  payments : List Payment
  repos : List Repo
  otpTokens : List OtpToken
  multisigPushes : List MultisigPush
  multisigSignatures : List MultisigSignature
deriving DecidableEq, Repr

/-- The `signers` field of a request body: absent/null, a JSON array
(whose items may or may not be strings — `none` models a non-string
item), or a comma-separated string. -/
inductive SignersInput where
  | nul : SignersInput
  | arr : List (Option String) → SignersInput
  | str : String → SignersInput
deriving DecidableEq, Repr

/-- JS `String.prototype.trim`: drop whitespace from both ends,
expressed over the character list (so that it evaluates by kernel
reduction, unlike `String.trim`). -/
def jsTrim (s : String) : String :=
  String.mk (((s.data.dropWhile Char.isWhitespace).reverse.dropWhile
    Char.isWhitespace).reverse)

/-- `parseSigners` from the backend: trims string items and drops
empty ones; a comma-separated string is split first. -/
def parseSigners : SignersInput → List String
  | .nul => []
  | .arr items =>
      (items.map (fun v => match v with | some s => jsTrim s | none => "")).filter
        (fun v => v.length > 0)
  | .str s => ((s.splitOn ",").map jsTrim).filter (fun v => v.length > 0)

/-- `calcThreshold` from the backend.  JS truthiness of
`maybeThreshold && maybeThreshold > 0` collapses, for integers, to
`0 < t`; `Math.ceil(n / 2)` for a natural `n` is `(n + 1) / 2`. -/
def calcThreshold (signers : List String) (maybeThreshold : Option Int) : Option Int :=
  if signers.length = 0 then none
  else
    match maybeThreshold with
    | some t =>
        if 0 < t ∧ t ≤ (signers.length : Int) then some t
        else some (((signers.length + 1) / 2 : Nat) : Int)
    | none => some (((signers.length + 1) / 2 : Nat) : Int)

/-- `SELECT * FROM payments WHERE tx_sig = $1 LIMIT 1` (first row). -/
def findPayment (txSig : String) (ps : List Payment) : Option Payment :=
  ps.find? (fun p => p.txSig == txSig)

/-- `UPDATE payments SET consumed_at = NOW() WHERE id = $1`. -/
def consumePayment (pid : String) (now : Nat) (ps : List Payment) : List Payment :=
  ps.map (fun p => if p.id == pid then { p with consumedAt := some now } else p)

/-- `UPDATE payments SET status = 'confirmed' WHERE id = $1`. -/
def confirmPayment (pid : String) (ps : List Payment) : List Payment :=
  ps.map (fun p => if p.id == pid then { p with status := "confirmed" } else p)

/-- `SELECT * FROM repos WHERE id = $1 LIMIT 1`. -/
def findRepoById (rid : String) (rs : List Repo) : Option Repo :=
  rs.find? (fun r => r.id == rid)

/-- `getRepoByOwnerAndName` from the backend: returns null when either
argument is absent or empty (JS falsiness of a string). -/
def getRepoByOwnerAndName (owner name : Option String) (rs : List Repo) : Option Repo :=
  match owner, name with
  | some o, some n =>
      if o = "" ∨ n = "" then none
      else rs.find? (fun r => r.owner == o && r.name == n)
  | _, _ => none

/-- Body of `POST /repos`.  `name`, `owner`, `paymentTxSig` are
strings whose JS-falsiness check collapses to an emptiness check;
`threshold` is `none` when absent or `Number(...)` is NaN. -/
structure ReposReq where
  name : String
  owner : String
  isPrivate : Bool
  signers : SignersInput
  threshold : Option Int
  paymentTxSig : String
deriving DecidableEq, Repr

/-- The row handed to `INSERT INTO repos` by `POST /repos`. -/
def reposInsertRow (req : ReposReq) (repoId : String) : Repo :=
  let signerList := parseSigners req.signers
  { id := repoId
    name := jsTrim req.name
    owner := jsTrim req.owner
    isPrivate := req.isPrivate
    isMultisig := decide (signerList.length > 0)
    threshold := calcThreshold signerList req.threshold
    signers := signerList
    paymentTx := some req.paymentTxSig }

/-- The `BEGIN ... COMMIT` body of `POST /repos`: locks the payment
row for `tx_sig`, checks purpose / status / consumed-at, inserts the
repo with `ON CONFLICT (owner, name) DO NOTHING` (throwing
`repo_exists` when no row comes back), and marks the payment
consumed.  Returns the committed state, or the thrown message. -/
def postReposTx (req : ReposReq) (now : Nat) (newRepoId : String) (db : DB) :
    Except String (Repo × DB) :=
  match findPayment req.paymentTxSig db.payments with
  | none => .error "payment_not_found"
  | some payment =>
    if payment.purpose ≠ "repo_init" then .error "payment_wrong_purpose"
    else if payment.status ≠ "confirmed" then .error "payment_not_confirmed"
    else if payment.consumedAt.isSome then .error "payment_already_consumed"
    else
      let row := reposInsertRow req newRepoId
      if db.repos.any (fun r => r.owner == row.owner && r.name == row.name) then
        .error "repo_exists"
      else
        .ok (row,
          { db with
              repos := db.repos ++ [row]
              payments := consumePayment payment.id now db.payments })

/-- `POST /repos`: body validation, then the transaction; the
`catch` clause issues `ROLLBACK`, so a thrown error leaves the input
state untouched.  The returned error string is the thrown message
carried in the route's `repo_create_failed` response. -/
def postRepos (req : ReposReq) (now : Nat) (newRepoId : String) (db : DB) :
    Except String Repo × DB :=
  if req.name = "" then (.error "name_required", db)
  else if req.owner = "" then (.error "owner_required", db)
  else if req.paymentTxSig = "" then (.error "payment_required", db)
  else
    match postReposTx req now newRepoId db with
    | .ok (row, db2) => (.ok row, db2)
    | .error e => (.error e, db)

/-- Payment environment configuration (from `.env`). -/
structure PaymentCfg where
  paymentDestination : String
  paymentTokenMint : String
  paymentTokenDecimals : Int
  minPaymentAtomic : Int
deriving DecidableEq, Repr

/-- The `uiTokenAmount` of a token-balance entry; `amount` is the
exact atomic amount (`BigInt` in the source), `decimals` may be
absent. -/
structure UiTokenAmount where
  amount : Int
  decimals : Option Int
deriving DecidableEq, Repr

/-- One entry of `meta.preTokenBalances` / `meta.postTokenBalances`. -/
structure TokenBalance where
  owner : String
  mint : String
  accountIndex : Int
  uiTokenAmount : Option UiTokenAmount
deriving DecidableEq, Repr

/-- The data of a fetched transaction: `tx.meta` (absence of the
transaction or of its meta collapses to `none` at the call site). -/
structure TxMeta where
  err : Bool
  preTokenBalances : List TokenBalance
  postTokenBalances : List TokenBalance
deriving DecidableEq, Repr

/-- Result of `verifyTokenPayment`. -/
structure ChainInfo where
  amountAtomic : Int
  decimals : Int
deriving DecidableEq, Repr

/-- `verifyTokenPayment` from the backend: finds the destination entry
among the post-balances, the matching pre-balance (same mint, owner
and account index), takes a missing amount as `0`, and requires a
strictly positive delta.  The fetched transaction is passed in as
data (`none` models `!tx || !tx.meta`). -/
def verifyTokenPayment (cfg : PaymentCfg) (tx : Option TxMeta) : Except String ChainInfo :=
  if cfg.paymentDestination = "" ∨ cfg.paymentTokenMint = "" then
    .error "payment_env_not_configured"
  else
    match tx with
    | none => .error "transaction_not_found"
    | some meta =>
      if meta.err then .error "transaction_failed"
      else
        match meta.postTokenBalances.find?
            (fun e => e.owner == cfg.paymentDestination && e.mint == cfg.paymentTokenMint) with
        | none => .error "destination_not_involved"
        | some dest =>
          let preMatch := meta.preTokenBalances.find?
            (fun e => e.mint == cfg.paymentTokenMint && e.owner == cfg.paymentDestination
              && e.accountIndex == dest.accountIndex)
          let postAmount := match dest.uiTokenAmount with
            | some u => u.amount
            | none => 0
          let preAmount := match preMatch with
            | some p =>
                match p.uiTokenAmount with
                | some u => u.amount
                | none => 0
            | none => 0
          let delta := postAmount - preAmount
          if delta ≤ 0 then .error "no_deposit_detected"
          else
            let decimals := match dest.uiTokenAmount with
              | some u =>
                  match u.decimals with
                  | some d => d
                  | none => cfg.paymentTokenDecimals
              | none => cfg.paymentTokenDecimals
            .ok ⟨delta, decimals⟩

/-- Body of `POST /payments/verify` (the `purpose` default
`"repo_init"` is applied during destructuring, so it is already
present here). -/
structure VerifyReq where
  txSig : String
  payer : Option String
  purpose : String
  repoName : Option String
deriving DecidableEq, Repr

/-- `POST /payments/verify`.  `txData` is what the remote
`getTransaction` fetch returns; `race` models a row with the same
`tx_sig` committed by a concurrent caller between this handler's
existence check and its `INSERT` (the unique `tx_sig` constraint then
makes the insert throw, which the route's catch-all converts into a
`payment_verification_failed` response). -/
def paymentsVerify (cfg : PaymentCfg) (req : VerifyReq) (txData : Option TxMeta)
    (race : Option Payment) (newId : String) (db : DB) :
    Except String (Payment × Bool) × DB :=
  if req.txSig = "" then (.error "txSig_required", db)
  else if req.purpose = "" then (.error "purpose_required", db)
  else if cfg.paymentDestination = "" ∨ cfg.paymentTokenMint = "" then
    (.error "payment_env_not_configured", db)
  else
    match findPayment req.txSig db.payments with
    | some row =>
      if row.purpose ≠ req.purpose then (.error "purpose_mismatch", db)
      else if row.status ≠ "confirmed" then
        (.ok ({ row with status := "confirmed" }, true),
         { db with payments := confirmPayment row.id db.payments })
      else (.ok (row, true), db)
    | none =>
      match verifyTokenPayment cfg txData with
      | .error _ => (.error "payment_verification_failed", db)
      | .ok chainInfo =>
        if chainInfo.amountAtomic < cfg.minPaymentAtomic then
          (.error "insufficient_amount", db)
        else
          let newRow : Payment :=
            { id := newId
              txSig := req.txSig
              payer := req.payer
              purpose := req.purpose
              tokenAmountAtomic := chainInfo.amountAtomic
              status := "confirmed"
              repoName := req.repoName
              consumedAt := none }
          let db2 := match race with
            | some p => { db with payments := db.payments ++ [p] }
            | none => db
          if db2.payments.any (fun p => p.txSig == req.txSig) then
            (.error "payment_verification_failed", db2)
          else
            (.ok (newRow, false), { db2 with payments := db2.payments ++ [newRow] })

/-- `UPDATE otp_tokens SET used_at = NOW() WHERE id = $1 AND used_at
IS NULL` applied to the table. -/
def conditionalUse (rid : String) (t : Nat) (l : List OtpToken) : List OtpToken :=
  l.map (fun r => if r.id == rid && r.usedAt.isNone then { r with usedAt := some t } else r)

/-- Response of a successful `POST /otp/redeem`. -/
structure RedeemResp where
  repoId : String
  bundleTx : String
  decryptKey : String
deriving DecidableEq, Repr

/-- `POST /otp/redeem`: looks the token up, rejects used or expired
tickets, then performs the conditional update; `race` models a
concurrent redeemer whose identical conditional update (with its own
timestamp) committed between this handler's SELECT and its UPDATE, in
which case the update reports zero affected rows. -/
def otpRedeem (otp : String) (now : Nat) (race : Option Nat) (db : DB) :
    Except String RedeemResp × DB :=
  if otp = "" then (.error "otp_required", db)
  else
    match db.otpTokens.find? (fun r => r.otpPlain == otp) with
    | none => (.error "otp_not_found", db)
    | some row =>
      if row.usedAt.isSome then (.error "otp_already_used", db)
      else if (match row.expiresAt with | some e => decide (e < now) | none => false) then
        (.error "otp_expired", db)
      else
        let db2 := match race with
          | some t => { db with otpTokens := conditionalUse row.id t db.otpTokens }
          | none => db
        let rowCount : Nat :=
          (db2.otpTokens.filter (fun r => r.id == row.id && r.usedAt.isNone)).length
        if rowCount = 0 then (.error "otp_already_used", db2)
        else
          (.ok ⟨row.repoId, row.bundleTx, row.decryptKey⟩,
           { db2 with otpTokens := conditionalUse row.id now db2.otpTokens })

/-- Response of a successful `POST /multisig/approve`. -/
structure ApproveResp where
  status : String
  approvalsCount : Nat
  approvalsRequired : Int
deriving DecidableEq, Repr

/-- The `BEGIN ... COMMIT` body of `POST /multisig/approve`: selects
the push row `FOR UPDATE`, inserts the signature — the
`(multisig_push_id, signer)` unique constraint is violated exactly
when a row for that pair exists, and the handler translates that
violation (error code `23505`) into `signature_already_submitted` —
recounts the stored signature rows, and updates the push row
(flipping it to approved and stamping `approved_at` when the count
reaches the requirement and it is still pending). -/
def approveTx (txId signer signatureB64 newSigId : String) (repo : Repo) (now : Nat)
    (db : DB) : Except String (ApproveResp × DB) :=
  match db.multisigPushes.find? (fun m => m.repoId == repo.id && m.pushTx == txId) with
  | none => .error "push_not_tracked"
  | some push =>
    if db.multisigSignatures.any
        (fun s => s.multisigPushId == push.id && s.signer == signer) then
      .error "signature_already_submitted"
    else
      let sigs2 := db.multisigSignatures ++ [⟨newSigId, push.id, signer, signatureB64⟩]
      let approvalsCount : Nat := (sigs2.filter (fun s => s.multisigPushId == push.id)).length
      if push.approvalsRequired ≤ (approvalsCount : Int) ∧ push.status ≠ "approved" then
        .ok (⟨"approved", approvalsCount, push.approvalsRequired⟩,
         { db with
             multisigSignatures := sigs2
             multisigPushes := db.multisigPushes.map (fun m =>
               if m.id == push.id then
                 { m with status := "approved", approvalsCount := (approvalsCount : Int),
                          approvedAt := some now }
               else m) })
      else
        .ok (⟨push.status, approvalsCount, push.approvalsRequired⟩,
         { db with
             multisigSignatures := sigs2
             multisigPushes := db.multisigPushes.map (fun m =>
               if m.id == push.id then { m with approvalsCount := (approvalsCount : Int) }
               else m) })

/-- `POST /multisig/approve`: body validation and the pre-transaction
lookups (repo fetch, live authorization check, signature
verification), then the `approveTx` transaction, whose thrown errors
roll back to the input state.  `sigOk txId signer signatureB64` is
the oracle for `verifyApprovalSignature` (nacl detached verification
over the canonical `Permagit Push Approval:<txId>` message); any of
its failure modes makes the route answer `signature_invalid`. -/
def multisigApprove (sigOk : String → String → String → Bool)
    (repoId owner name : Option String) (txId signer signatureB64 : String)
    (newSigId : String) (now : Nat) (db : DB) : Except String ApproveResp × DB :=
  if txId = "" then (.error "txId_required", db)
  else if signer = "" then (.error "signer_required", db)
  else if signatureB64 = "" then (.error "signature_required", db)
  else
    let repoOpt := match repoId with
      | some rid => if rid = "" then getRepoByOwnerAndName owner name db.repos
                    else findRepoById rid db.repos
      | none => getRepoByOwnerAndName owner name db.repos
    match repoOpt with
    | none => (.error "repo_not_multisig", db)
    | some repo =>
      if ¬ repo.isMultisig then (.error "repo_not_multisig", db)
      else if ¬ (signer ∈ repo.signers) then (.error "signer_not_authorized", db)
      else if ¬ sigOk txId signer signatureB64 then (.error "signature_invalid", db)
      else
        match approveTx txId signer signatureB64 newSigId repo now db with
        | .ok (resp, db2) => (.ok resp, db2)
        | .error e => (.error e, db)

/-- `ensureMultisigEntry` from the backend: inserts a pending
`multisig_pushes` row with `ON CONFLICT (repo_id, push_tx) DO
NOTHING`, then re-selects it. -/
def ensureMultisigEntry (repo : Option Repo) (pushTx : String) (branch : Option String)
    (newId : String) (db : DB) : Option MultisigPush × DB :=
  match repo with
  | none => (none, db)
  | some r =>
    if ¬ r.isMultisig then (none, db)
    else
      match calcThreshold r.signers r.threshold with
      | none => (none, db)
      | some threshold =>
        let db2 :=
          if db.multisigPushes.any (fun m => m.repoId == r.id && m.pushTx == pushTx) then db
          else { db with multisigPushes :=
                  db.multisigPushes ++ [⟨newId, r.id, pushTx, branch, "pending", threshold, 0, none⟩] }
        (db2.multisigPushes.find? (fun m => m.repoId == r.id && m.pushTx == pushTx), db2)

/-- Summary of an approval entry returned by `POST /multisig/setup`. -/
structure MultisigInfo where
  status : String
  approvalsRequired : Int
  approvalsCount : Int
deriving DecidableEq, Repr

/-- Response of a successful `POST /multisig/setup` (`repo` mirrors
`formatRepoRow`, which yields null for an absent row). -/
structure SetupResp where
  repo : Option Repo
  multisig : Option MultisigInfo
deriving DecidableEq, Repr

/-- Body of `POST /multisig/setup`. -/
structure SetupReq where
  repoId : Option String
  owner : Option String
  name : Option String
  pushTx : String
  signers : SignersInput
  threshold : Option Int
  paymentTxSig : String
deriving DecidableEq, Repr

/-- `POST /multisig/setup`: validates the body, reads the payment row
(plain SELECT — no transaction, no `FOR UPDATE`), checks its purpose
and confirmed status, then creates or updates the repo and ensures a
`multisig_pushes` entry.  Note that, unlike `POST /repos` and `POST
/otp/request`, this handler neither tests `consumed_at` nor sets it. -/
def multisigSetup (req : SetupReq) (newRepoId newPushId : String) (db : DB) :
    Except String SetupResp × DB :=
  if req.pushTx = "" then (.error "push_tx_required", db)
  else if req.paymentTxSig = "" then (.error "payment_required", db)
  else
    let signerList := parseSigners req.signers
    if signerList.length = 0 then (.error "signers_required", db)
    else
      match calcThreshold signerList req.threshold with
      | none => (.error "invalid_threshold", db)
      | some computedThreshold =>
        match findPayment req.paymentTxSig db.payments with
        | none => (.error "payment_not_found", db)
        | some payment =>
          if payment.purpose ≠ "multisig_setup" then (.error "payment_wrong_purpose", db)
          else if payment.status ≠ "confirmed" then (.error "payment_not_confirmed", db)
          else
            let repo0 : Option Repo := match req.repoId with
              | some rid => if rid = "" then none else findRepoById rid db.repos
              | none => none
            let repo1 : Option Repo := match repo0 with
              | some r => some r
              | none => getRepoByOwnerAndName req.owner req.name db.repos
            match repo1 with
            | none =>
              match req.owner, req.name with
              | some o, some n =>
                if o = "" ∨ n = "" then (.error "repo_identification_required", db)
                else
                  let newRepo : Repo :=
                    ⟨newRepoId, n, o, false, true, some computedThreshold, signerList,
                      some req.paymentTxSig⟩
                  let db2 := { db with repos := db.repos ++ [newRepo] }
                  let r3 := ensureMultisigEntry (some newRepo) req.pushTx none newPushId db2
                  (.ok ⟨some newRepo, r3.1.map (fun m => ⟨m.status, m.approvalsRequired, m.approvalsCount⟩)⟩,
                   r3.2)
              | _, _ => (.error "repo_identification_required", db)
            | some repo =>
              let db2 := { db with repos := db.repos.map (fun r =>
                if r.id == repo.id then
                  { r with isMultisig := true, threshold := some computedThreshold,
                           signers := signerList,
                           paymentTx := (match r.paymentTx with
                             | some t => some t
                             | none => some req.paymentTxSig) }
                else r) }
              let refreshed := findRepoById repo.id db2.repos
              let r3 := ensureMultisigEntry refreshed req.pushTx none newPushId db2
              (.ok ⟨refreshed, r3.1.map (fun m => ⟨m.status, m.approvalsRequired, m.approvalsCount⟩)⟩,
               r3.2)

/-! ## Generic lemmas about the table helpers -/

/-- `find?` commutes with a row update that preserves the searched
predicate. -/
theorem find?_map_pres {α : Type} (f : α → α) (q : α → Bool) (h : ∀ x, q (f x) = q x) :
    ∀ l : List α, (l.map f).find? q = (l.find? q).map f
  | [] => rfl
  | a :: t => by
    simp only [List.map_cons, List.find?_cons, h a]
    cases hq : q a <;> simp [find?_map_pres f q h t]

/-- Looking a payment up after `consumePayment` returns the looked-up
row, updated. -/
theorem findPayment_consumePayment (tx pid : String) (now : Nat) (ps : List Payment) :
    findPayment tx (consumePayment pid now ps) =
      (findPayment tx ps).map
        (fun p => if p.id == pid then { p with consumedAt := some now } else p) := by
  unfold findPayment consumePayment
  apply find?_map_pres
  intro x
  by_cases hx : x.id == pid <;> simp [hx]

/-! ## Claim theorems -/

/-- C8: for a non-empty signer list of length n the effective
threshold is the requested one exactly when `1 ≤ requested ≤ n` and
`⌈n/2⌉` (that is, `(n+1)/2`) otherwise; sizes 1..5 default to
1, 1, 2, 2, 3; the empty signer list yields no threshold; and the
repo row inserted by `POST /repos` has its multisig flag set iff the
parsed signer list is non-empty. -/
theorem calcThreshold_requested_or_default :
    (∀ (signers : List String) (t : Int), signers ≠ [] →
        ((1 ≤ t ∧ t ≤ (signers.length : Int)) → calcThreshold signers (some t) = some t)
        ∧ (¬(1 ≤ t ∧ t ≤ (signers.length : Int)) →
            calcThreshold signers (some t) = some (((signers.length + 1) / 2 : Nat) : Int)))
    ∧ (∀ mt : Option Int, calcThreshold [] mt = none)
    ∧ (∀ signers : List String, signers ≠ [] →
        calcThreshold signers none = some (((signers.length + 1) / 2 : Nat) : Int))
    ∧ (calcThreshold ["s1"] none = some 1 ∧ calcThreshold ["s1", "s2"] none = some 1
        ∧ calcThreshold ["s1", "s2", "s3"] none = some 2
        ∧ calcThreshold ["s1", "s2", "s3", "s4"] none = some 2
        ∧ calcThreshold ["s1", "s2", "s3", "s4", "s5"] none = some 3)
    ∧ (∀ (req : ReposReq) (rid : String),
        (reposInsertRow req rid).isMultisig = true ↔ parseSigners req.signers ≠ []) := by
  refine ⟨?_, ?_, ?_, ⟨by decide, by decide, by decide, by decide, by decide⟩, ?_⟩
  · intro signers t hne
    have hlen : ¬ signers.length = 0 := by
      simpa [List.length_eq_zero] using hne
    have hiff : (0 < t ∧ t ≤ (signers.length : Int)) ↔
        (1 ≤ t ∧ t ≤ (signers.length : Int)) := by omega
    constructor
    · intro h
      simp only [calcThreshold, if_neg hlen]
      rw [if_pos (hiff.mpr h)]
    · intro h
      simp only [calcThreshold, if_neg hlen]
      rw [if_neg (fun hc => h (hiff.mp hc))]
  · intro mt
    simp [calcThreshold]
  · intro signers hne
    have hlen : ¬ signers.length = 0 := by
      simpa [List.length_eq_zero] using hne
    simp only [calcThreshold, if_neg hlen]
  · intro req rid
    simp [reposInsertRow, List.length_pos]

/-- Witness for C8 at concrete inputs. -/
theorem calcThreshold_requested_or_default_witness :
    calcThreshold ["a", "b", "c"] (some 2) = some 2
    ∧ calcThreshold ["a", "b", "c"] (some 7) = some 2 := by
  constructor
  · exact (calcThreshold_requested_or_default.1 ["a", "b", "c"] 2 (by decide)).1 (by decide)
  · exact (calcThreshold_requested_or_default.1 ["a", "b", "c"] 7 (by decide)).2 (by decide)

/-- C10: when a post-transfer balance entry for the configured
recipient and mint exists but no pre-transfer entry matches on mint,
owner and account index, the pre-amount is taken as zero, so the net
delivered is the full post amount (exact `Int` arithmetic); a net of
zero or less fails with `no_deposit_detected`, otherwise the call
succeeds with that net amount. -/
theorem verifyTokenPayment_zero_pre (cfg : PaymentCfg) (meta : TxMeta) (dest : TokenBalance)
    (hd : cfg.paymentDestination ≠ "") (hm : cfg.paymentTokenMint ≠ "")
    (herr : meta.err = false)
    (hdest : meta.postTokenBalances.find?
        (fun e => e.owner == cfg.paymentDestination && e.mint == cfg.paymentTokenMint)
        = some dest)
    (hpre : meta.preTokenBalances.find?
        (fun e => e.mint == cfg.paymentTokenMint && e.owner == cfg.paymentDestination
          && e.accountIndex == dest.accountIndex) = none) :
    verifyTokenPayment cfg (some meta) =
      (if (match dest.uiTokenAmount with | some u => u.amount | none => 0) ≤ 0 then
        Except.error "no_deposit_detected"
      else
        Except.ok ⟨(match dest.uiTokenAmount with | some u => u.amount | none => 0),
          (match dest.uiTokenAmount with
            | some u => (match u.decimals with | some d => d | none => cfg.paymentTokenDecimals)
            | none => cfg.paymentTokenDecimals)⟩) := by
  have hcond : ¬ (cfg.paymentDestination = "" ∨ cfg.paymentTokenMint = "") := by
    simp [hd, hm]
  simp only [verifyTokenPayment, if_neg hcond, herr, hdest, hpre]
  simp

/-- Witness for C10 at a concrete transaction. -/
theorem verifyTokenPayment_zero_pre_witness :
    verifyTokenPayment ⟨"D", "M", 9, 10⟩
        (some ⟨false, [], [⟨"D", "M", 0, some ⟨10, some 6⟩⟩]⟩) = .ok ⟨10, 6⟩ := by
  rw [verifyTokenPayment_zero_pre ⟨"D", "M", 9, 10⟩
    ⟨false, [], [⟨"D", "M", 0, some ⟨10, some 6⟩⟩]⟩ ⟨"D", "M", 0, some ⟨10, some 6⟩⟩
    (by decide) (by decide) rfl (by decide) (by decide)]
  rfl

/-- C2: any error thrown inside the `POST /repos` transaction rolls
the whole transaction back, leaving the state — in particular the
payment's consumed-at — unchanged; specifically, when the repo insert
loses the `(owner, name)` uniqueness check, the call fails with
`repo_exists` and the state is untouched. -/
theorem postRepos_rollback (req : ReposReq) (now : Nat) (newRepoId : String) (db : DB) :
    (∀ e, (postRepos req now newRepoId db).1 = .error e →
        (postRepos req now newRepoId db).2 = db)
    ∧ (∀ payment, findPayment req.paymentTxSig db.payments = some payment →
        req.name ≠ "" → req.owner ≠ "" → req.paymentTxSig ≠ "" →
        payment.purpose = "repo_init" → payment.status = "confirmed" →
        payment.consumedAt = none →
        db.repos.any (fun r => r.owner == (reposInsertRow req newRepoId).owner
          && r.name == (reposInsertRow req newRepoId).name) = true →
        postRepos req now newRepoId db = (.error "repo_exists", db)) := by
  constructor
  · intro e
    unfold postRepos
    by_cases h1 : req.name = ""
    · simp [h1]
    by_cases h2 : req.owner = ""
    · simp [h1, h2]
    by_cases h3 : req.paymentTxSig = ""
    · simp [h1, h2, h3]
    simp only [if_neg h1, if_neg h2, if_neg h3]
    cases h : postReposTx req now newRepoId db with
    | ok v => simp
    | error e2 => simp
  · intro payment hfind hn ho hp hpur hst hcons hany
    unfold postRepos postReposTx
    rw [if_neg hn, if_neg ho, if_neg hp, hfind]
    simp [hpur, hst, hcons, hany]

/-- Witness for C2 at a concrete conflicting insert. -/
theorem postRepos_rollback_witness :
    postRepos ⟨"acme", "alice", false, .nul, none, "tx1"⟩ 5 "r2"
        ⟨[⟨"pay1", "tx1", some "alice", "repo_init", 10, "confirmed", none, none⟩],
         [⟨"r1", "acme", "alice", false, false, none, [], none⟩], [], [], []⟩
      = (.error "repo_exists",
         ⟨[⟨"pay1", "tx1", some "alice", "repo_init", 10, "confirmed", none, none⟩],
          [⟨"r1", "acme", "alice", false, false, none, [], none⟩], [], [], []⟩) := by
  exact (postRepos_rollback ⟨"acme", "alice", false, .nul, none, "tx1"⟩ 5 "r2"
      ⟨[⟨"pay1", "tx1", some "alice", "repo_init", 10, "confirmed", none, none⟩],
       [⟨"r1", "acme", "alice", false, false, none, [], none⟩], [], [], []⟩).2
    ⟨"pay1", "tx1", some "alice", "repo_init", 10, "confirmed", none, none⟩
    (by decide) (by decide) (by decide) (by decide) rfl rfl rfl (by decide)

/-- C1: a successful `POST /repos` finds the payment unconsumed,
commits a state in which its consumed-at is set to the transaction
time, and any second `POST /repos` with the same payment transaction
hash fails with `payment_already_consumed` while leaving the state —
in particular the consumed-at value — unchanged. -/
theorem postRepos_consume_exactly_once (req : ReposReq) (now : Nat) (newRepoId : String)
    (db : DB) (payment : Payment)
    (hn : req.name ≠ "") (ho : req.owner ≠ "") (hp : req.paymentTxSig ≠ "")
    (hfind : findPayment req.paymentTxSig db.payments = some payment)
    (hpur : payment.purpose = "repo_init") (hst : payment.status = "confirmed")
    (hcons : payment.consumedAt = none)
    (hno : db.repos.any (fun r => r.owner == (reposInsertRow req newRepoId).owner
      && r.name == (reposInsertRow req newRepoId).name) = false) :
    postRepos req now newRepoId db =
      (.ok (reposInsertRow req newRepoId),
       { db with repos := db.repos ++ [reposInsertRow req newRepoId],
                 payments := consumePayment payment.id now db.payments })
    ∧ findPayment req.paymentTxSig (consumePayment payment.id now db.payments) =
        some { payment with consumedAt := some now }
    ∧ (∀ (req2 : ReposReq) (now2 : Nat) (id2 : String),
        req2.paymentTxSig = req.paymentTxSig → req2.name ≠ "" → req2.owner ≠ "" →
        postRepos req2 now2 id2
            { db with repos := db.repos ++ [reposInsertRow req newRepoId],
                      payments := consumePayment payment.id now db.payments } =
          (.error "payment_already_consumed",
           { db with repos := db.repos ++ [reposInsertRow req newRepoId],
                     payments := consumePayment payment.id now db.payments })) := by
  have hfind2 : findPayment req.paymentTxSig (consumePayment payment.id now db.payments) =
      some { payment with consumedAt := some now } := by
    rw [findPayment_consumePayment, hfind]
    simp
  refine ⟨?_, hfind2, ?_⟩
  · unfold postRepos postReposTx
    rw [if_neg hn, if_neg ho, if_neg hp, hfind]
    simp [hpur, hst, hcons, hno]
  · intro req2 now2 id2 htx hn2 ho2
    unfold postRepos postReposTx
    rw [if_neg hn2, if_neg ho2, htx, if_neg hp]
    simp [hfind2, hpur, hst]

/-- Witness for C1 at a concrete registration replay. -/
theorem postRepos_consume_exactly_once_witness :
    postRepos ⟨"acme", "alice", false, .nul, none, "tx1"⟩ 7 "r2"
        (postRepos ⟨"acme2", "alice", false, .nul, none, "tx1"⟩ 5 "r1"
          ⟨[⟨"pay1", "tx1", some "alice", "repo_init", 10, "confirmed", none, none⟩],
           [], [], [], []⟩).2
      = (.error "payment_already_consumed",
         (postRepos ⟨"acme2", "alice", false, .nul, none, "tx1"⟩ 5 "r1"
          ⟨[⟨"pay1", "tx1", some "alice", "repo_init", 10, "confirmed", none, none⟩],
           [], [], [], []⟩).2) := by
  have h := postRepos_consume_exactly_once ⟨"acme2", "alice", false, .nul, none, "tx1"⟩ 5 "r1"
    ⟨[⟨"pay1", "tx1", some "alice", "repo_init", 10, "confirmed", none, none⟩], [], [], [], []⟩
    ⟨"pay1", "tx1", some "alice", "repo_init", 10, "confirmed", none, none⟩
    (by decide) (by decide) (by decide) rfl rfl rfl rfl (by decide)
  rw [h.1]
  exact h.2.2 ⟨"acme", "alice", false, .nul, none, "tx1"⟩ 7 "r2" rfl (by decide) (by decide)

/-- C9: when a payment record for the transaction hash already
exists, `POST /payments/verify` asserts the stored purpose matches
(failing `purpose_mismatch` otherwise), opportunistically flips a
non-confirmed status to confirmed, and returns the stored record with
`reused = true`.  The result is the same for every value of the
remote transaction fetch and of the concurrent-insert interleaving —
the ledger verifier is not consulted — and no record is inserted (the
payments table keeps its length). -/
theorem paymentsVerify_replay (cfg : PaymentCfg) (req : VerifyReq) (txData : Option TxMeta)
    (race : Option Payment) (newId : String) (db : DB) (row : Payment)
    (ht : req.txSig ≠ "") (hpu : req.purpose ≠ "")
    (hd : cfg.paymentDestination ≠ "") (hm : cfg.paymentTokenMint ≠ "")
    (hfind : findPayment req.txSig db.payments = some row) :
    (row.purpose ≠ req.purpose →
      paymentsVerify cfg req txData race newId db = (.error "purpose_mismatch", db))
    ∧ (row.purpose = req.purpose → row.status = "confirmed" →
      paymentsVerify cfg req txData race newId db = (.ok (row, true), db))
    ∧ (row.purpose = req.purpose → row.status ≠ "confirmed" →
      paymentsVerify cfg req txData race newId db =
        (.ok ({ row with status := "confirmed" }, true),
         { db with payments := confirmPayment row.id db.payments })
      ∧ (confirmPayment row.id db.payments).length = db.payments.length) := by
  have hcond : ¬ (cfg.paymentDestination = "" ∨ cfg.paymentTokenMint = "") := by
    simp [hd, hm]
  refine ⟨?_, ?_, ?_⟩
  · intro hne
    unfold paymentsVerify
    rw [if_neg ht, if_neg hpu, if_neg hcond, hfind]
    simp [hne]
  · intro heq hst
    unfold paymentsVerify
    rw [if_neg ht, if_neg hpu, if_neg hcond, hfind]
    simp [heq, hst]
  · intro heq hst
    refine ⟨?_, by simp [confirmPayment]⟩
    unfold paymentsVerify
    rw [if_neg ht, if_neg hpu, if_neg hcond, hfind]
    simp [heq, hst]

/-- Witness for C9 at a concrete replay. -/
theorem paymentsVerify_replay_witness :
    paymentsVerify ⟨"D", "M", 9, 10⟩ ⟨"tx1", none, "repo_init", none⟩ none none "n1"
        ⟨[⟨"pay1", "tx1", some "alice", "repo_init", 10, "pending", none, none⟩], [], [], [], []⟩
      = (.ok (⟨"pay1", "tx1", some "alice", "repo_init", 10, "confirmed", none, none⟩, true),
         ⟨[⟨"pay1", "tx1", some "alice", "repo_init", 10, "confirmed", none, none⟩],
          [], [], [], []⟩) := by
  have h := (paymentsVerify_replay ⟨"D", "M", 9, 10⟩ ⟨"tx1", none, "repo_init", none⟩ none none
    "n1" ⟨[⟨"pay1", "tx1", some "alice", "repo_init", 10, "pending", none, none⟩], [], [], [], []⟩
    ⟨"pay1", "tx1", some "alice", "repo_init", 10, "pending", none, none⟩
    (by decide) (by decide) (by decide) (by decide) rfl).2.2 rfl (by decide)
  exact h.1

/-- C4 counterexample: at a state where no record for the hash exists
at check time but a concurrent caller commits one before the insert,
the loser returns the error `payment_verification_failed` — it does
not re-read the winner's row and return it as a success, contrary to
the claim. -/
theorem paymentsVerify_race_counterexample :
    paymentsVerify ⟨"D", "M", 9, 10⟩ ⟨"tx1", none, "repo_init", none⟩
        (some ⟨false, [], [⟨"D", "M", 0, some ⟨10, some 9⟩⟩]⟩)
        (some ⟨"idX", "tx1", some "bob", "repo_init", 10, "confirmed", none, none⟩)
        "n1" ⟨[], [], [], [], []⟩
      = (.error "payment_verification_failed",
         ⟨[⟨"idX", "tx1", some "bob", "repo_init", 10, "confirmed", none, none⟩],
          [], [], [], []⟩) := by
  rfl

/-- C4 amended: when the insert of a new confirmed record loses the
unique transaction-hash race against a concurrent inserter, the
violation is caught by the route's generic handler and the call fails
with `payment_verification_failed` (the winner's row, already
committed, is the only one for the hash; the loser's row is not
inserted); a subsequent retry of the same call then takes the
idempotent-replay path and returns the winner's record. -/
theorem paymentsVerify_race_loser_fails (cfg : PaymentCfg) (req : VerifyReq)
    (txData : Option TxMeta) (newId : String) (db : DB) (p : Payment) (ci : ChainInfo)
    (ht : req.txSig ≠ "") (hpu : req.purpose ≠ "")
    (hd : cfg.paymentDestination ≠ "") (hm : cfg.paymentTokenMint ≠ "")
    (hnone : findPayment req.txSig db.payments = none)
    (hver : verifyTokenPayment cfg txData = .ok ci)
    (hamt : ¬ ci.amountAtomic < cfg.minPaymentAtomic)
    (htx : p.txSig = req.txSig) :
    paymentsVerify cfg req txData (some p) newId db =
      (.error "payment_verification_failed", { db with payments := db.payments ++ [p] })
    ∧ (p.purpose = req.purpose → p.status = "confirmed" →
       ∀ (txData2 : Option TxMeta) (race2 : Option Payment) (newId2 : String),
         paymentsVerify cfg req txData2 race2 newId2
             { db with payments := db.payments ++ [p] } =
           (.ok (p, true), { db with payments := db.payments ++ [p] })) := by
  have hcond : ¬ (cfg.paymentDestination = "" ∨ cfg.paymentTokenMint = "") := by
    simp [hd, hm]
  have hfind2 : findPayment req.txSig (db.payments ++ [p]) = some p := by
    unfold findPayment at hnone ⊢
    rw [List.find?_append, hnone, List.find?_cons]
    simp [htx]
  constructor
  · unfold paymentsVerify
    rw [if_neg ht, if_neg hpu, if_neg hcond, hnone, hver]
    have hany : (db.payments ++ [p]).any (fun q => q.txSig == req.txSig) = true := by
      simp [List.any_append, htx]
    simp [hamt, hany]
  · intro hpur hst txData2 race2 newId2
    unfold paymentsVerify
    rw [if_neg ht, if_neg hpu, if_neg hcond]
    simp [hfind2, hpur, hst]

/-- Witness for the C4 amended theorem at a concrete race. -/
theorem paymentsVerify_race_loser_fails_witness :
    paymentsVerify ⟨"D", "M", 9, 10⟩ ⟨"tx2", none, "repo_init", none⟩
        (some ⟨false, [], [⟨"D", "M", 0, some ⟨12, some 9⟩⟩]⟩)
        (some ⟨"idY", "tx2", some "bob", "repo_init", 12, "confirmed", none, none⟩)
        "n2" ⟨[], [], [], [], []⟩
      = (.error "payment_verification_failed",
         ⟨[⟨"idY", "tx2", some "bob", "repo_init", 12, "confirmed", none, none⟩],
          [], [], [], []⟩) := by
  exact (paymentsVerify_race_loser_fails ⟨"D", "M", 9, 10⟩ ⟨"tx2", none, "repo_init", none⟩
    (some ⟨false, [], [⟨"D", "M", 0, some ⟨12, some 9⟩⟩]⟩) "n2" ⟨[], [], [], [], []⟩
    ⟨"idY", "tx2", some "bob", "repo_init", 12, "confirmed", none, none⟩ ⟨12, 9⟩
    (by decide) (by decide) (by decide) (by decide) rfl rfl (by decide) rfl).1

/-- After the conditional update ran, no row of the ticket's id is
still unused. -/
theorem conditionalUse_kills_pred (rid : String) (t : Nat) (l : List OtpToken) :
    (conditionalUse rid t l).filter (fun r => r.id == rid && r.usedAt.isNone) = [] := by
  rw [List.filter_eq_nil_iff]
  intro a ha
  rw [conditionalUse, List.mem_map] at ha
  obtain ⟨x, hx, rfl⟩ := ha
  by_cases hc : (x.id == rid && x.usedAt.isNone) = true
  · rw [if_pos hc]
    simp
  · rw [if_neg hc]
    simpa using hc

/-- A member satisfying the filter predicate keeps the filtered list
non-empty. -/
theorem filter_len_ne_zero_of_mem {α : Type} (p : α → Bool) {a : α} {l : List α}
    (ha : a ∈ l) (hp : p a = true) : (l.filter p).length ≠ 0 := by
  have hmem : a ∈ l.filter p := List.mem_filter.mpr ⟨ha, hp⟩
  intro h
  rw [List.length_eq_zero] at h
  simp [h] at hmem

/-- Ticket lookup commutes with the conditional update. -/
theorem find?_conditionalUse (oq rid : String) (t : Nat) (l : List OtpToken) :
    (conditionalUse rid t l).find? (fun r => r.otpPlain == oq) =
      (l.find? (fun r => r.otpPlain == oq)).map
        (fun r => if r.id == rid && r.usedAt.isNone then { r with usedAt := some t } else r) := by
  unfold conditionalUse
  apply find?_map_pres
  intro x
  by_cases hx : (x.id == rid && x.usedAt.isNone) = true <;> simp [hx]

/-- C7: `POST /otp/redeem` fails `otp_not_found` when no ticket has
the token, `otp_already_used` when used-at is set, `otp_expired` when
the current time is past the expiry; otherwise success is gated on
the conditional update "set used-at where used-at is null": without a
concurrent redeemer the call succeeds exactly once, returning the
repo id, payload reference and key material, and any later redeem of
the same token fails `otp_already_used`; a concurrent redeemer who
wins the conditional update makes this call fail `otp_already_used`. -/
theorem otpRedeem_once (otp : String) (now : Nat) (race : Option Nat) (db : DB)
    (ho : otp ≠ "") :
    (db.otpTokens.find? (fun r => r.otpPlain == otp) = none →
      otpRedeem otp now race db = (.error "otp_not_found", db))
    ∧ (∀ row, db.otpTokens.find? (fun r => r.otpPlain == otp) = some row →
        (row.usedAt.isSome → otpRedeem otp now race db = (.error "otp_already_used", db))
        ∧ (∀ e, row.usedAt = none → row.expiresAt = some e → e < now →
            otpRedeem otp now race db = (.error "otp_expired", db))
        ∧ (row.usedAt = none →
            (match row.expiresAt with | some e => ¬ e < now | none => True) →
            (race = none →
              otpRedeem otp now race db =
                (.ok ⟨row.repoId, row.bundleTx, row.decryptKey⟩,
                 { db with otpTokens := conditionalUse row.id now db.otpTokens })
              ∧ (∀ (now2 : Nat) (race2 : Option Nat),
                  otpRedeem otp now2 race2
                      { db with otpTokens := conditionalUse row.id now db.otpTokens } =
                    (.error "otp_already_used",
                     { db with otpTokens := conditionalUse row.id now db.otpTokens })))
            ∧ (∀ t, race = some t →
                otpRedeem otp now race db =
                  (.error "otp_already_used",
                   { db with otpTokens := conditionalUse row.id t db.otpTokens })))) := by
  constructor
  · intro hnone
    unfold otpRedeem
    rw [if_neg ho, hnone]
  · intro row hfind
    refine ⟨?_, ?_, ?_⟩
    · intro hused
      unfold otpRedeem
      rw [if_neg ho, hfind]
      simp [hused]
    · intro e hu hexp hlt
      unfold otpRedeem
      rw [if_neg ho, hfind]
      simp [hu, hexp, hlt]
    · intro hu hexp
      have hexpb : (match row.expiresAt with
          | some e => decide (e < now)
          | none => false) = false := by
        cases he : row.expiresAt with
        | none => rfl
        | some e =>
          rw [he] at hexp
          simp [hexp]
      constructor
      · intro hrace
        subst hrace
        have hcnt : (db.otpTokens.filter
            (fun r => r.id == row.id && r.usedAt.isNone)).length ≠ 0 :=
          filter_len_ne_zero_of_mem _ (List.mem_of_find?_eq_some hfind) (by simp [hu])
        have hfirst : otpRedeem otp now none db =
            (.ok ⟨row.repoId, row.bundleTx, row.decryptKey⟩,
             { db with otpTokens := conditionalUse row.id now db.otpTokens }) := by
          unfold otpRedeem
          rw [if_neg ho, hfind]
          simp [hu, hexpb, hcnt]
        refine ⟨hfirst, ?_⟩
        intro now2 race2
        have hfind2 : (conditionalUse row.id now db.otpTokens).find?
            (fun r => r.otpPlain == otp) = some { row with usedAt := some now } := by
          rw [find?_conditionalUse, hfind]
          simp [hu]
        unfold otpRedeem
        rw [if_neg ho, hfind2]
        simp
      · intro t hrace
        subst hrace
        have hzero : ((conditionalUse row.id t db.otpTokens).filter
            (fun r => r.id == row.id && r.usedAt.isNone)).length = 0 := by
          rw [conditionalUse_kills_pred]
          rfl
        unfold otpRedeem
        rw [if_neg ho, hfind]
        simp [hu, hexpb, hzero]

/-- Witness for C7: a concrete redeem succeeds and the replay fails. -/
theorem otpRedeem_once_witness :
    otpRedeem "OTP" 50 none ⟨[], [], [⟨"t1", "r1", "tx3", "OTP", "KEY", "BUNDLE", some 100, none⟩], [], []⟩
      = (.ok ⟨"r1", "BUNDLE", "KEY"⟩,
         ⟨[], [], [⟨"t1", "r1", "tx3", "OTP", "KEY", "BUNDLE", some 100, some 50⟩], [], []⟩)
    ∧ otpRedeem "OTP" 60 none
        ⟨[], [], [⟨"t1", "r1", "tx3", "OTP", "KEY", "BUNDLE", some 100, some 50⟩], [], []⟩
      = (.error "otp_already_used",
         ⟨[], [], [⟨"t1", "r1", "tx3", "OTP", "KEY", "BUNDLE", some 100, some 50⟩], [], []⟩) := by
  have h := ((otpRedeem_once "OTP" 50 none
    ⟨[], [], [⟨"t1", "r1", "tx3", "OTP", "KEY", "BUNDLE", some 100, none⟩], [], []⟩
    (by decide)).2 ⟨"t1", "r1", "tx3", "OTP", "KEY", "BUNDLE", some 100, none⟩ rfl).2.2
    rfl (by decide)
  have h2 := (h.1 rfl).2 60 none
  exact ⟨(h.1 rfl).1, h2⟩

/-! ## Approval scenario: a repo with one tracked push -/

/-- One stored signature row per processed signer (the row's primary
key, which the handler's semantics never inspects, is taken to be the
signer itself). -/
def sigRowsFor (pushId : String) (sigOf : String → String) (M : List String) :
    List MultisigSignature :=
  M.map (fun s => ⟨s, pushId, s, sigOf s⟩)

/-- The push row after `j` successful approvals submitted at time
`now` against requirement `approvalsRequired`: the count is `j`, and
the row is approved with approved-at stamped as soon as `j` reaches
the requirement. -/
def pushAfter (push : MultisigPush) (now : Nat) (j : Nat) : MultisigPush :=
  { push with
      approvalsCount := (j : Int)
      status := if push.approvalsRequired ≤ (j : Int) then "approved" else "pending"
      approvedAt := if push.approvalsRequired ≤ (j : Int) then some now else none }

/-- A database holding exactly one repo and one approval request. -/
def scenarioDB (P : List Payment) (O : List OtpToken) (repo : Repo) (push : MultisigPush)
    (sigs : List MultisigSignature) : DB :=
  ⟨P, [repo], O, [push], sigs⟩

/-- Submit one approval per signer in the list, left to right. -/
def approveSeq (sigOk : String → String → String → Bool) (rid txId : String)
    (sigOf : String → String) (now : Nat) : List String → DB → DB
  | [], db => db
  | s :: rest, db =>
      approveSeq sigOk rid txId sigOf now rest
        (multisigApprove sigOk (some rid) none none txId s (sigOf s) s now db).2

/-- The duplicate-signer check over the scenario's signature rows is
membership of the processed-signer list. -/
theorem sigRowsFor_any_eq (pid : String) (sigOf : String → String) (M : List String)
    (s : String) :
    (sigRowsFor pid sigOf M).any (fun r => r.multisigPushId == pid && r.signer == s)
      = M.any (fun t => t == s) := by
  unfold sigRowsFor
  induction M with
  | nil => rfl
  | cons a t ih => simp_all

/-- Counting the scenario's signature rows for the push recovers the
number of processed signers. -/
theorem sigRowsFor_filter_len (pid : String) (sigOf : String → String) (M : List String) :
    ((sigRowsFor pid sigOf M).filter (fun r => r.multisigPushId == pid)).length
      = M.length := by
  unfold sigRowsFor
  induction M with
  | nil => rfl
  | cons a t ih => simp_all [List.filter_cons]

/-- One successful approval step from the scenario state: the
response reports the recount and the (possibly flipped) status, and
the state advances by one processed signer. -/
theorem approve_step_scenario
    (sigOk : String → String → String → Bool) (P : List Payment) (O : List OtpToken)
    (repo : Repo) (push : MultisigPush) (txId : String) (sigOf : String → String)
    (now : Nat) (M : List String) (s : String)
    (hrid : repo.id ≠ "") (htx : txId ≠ "")
    (hmulti : repo.isMultisig = true)
    (hpr : push.repoId = repo.id) (hpt : push.pushTx = txId)
    (hs : s ∈ repo.signers) (hsne : s ≠ "") (hsigne : sigOf s ≠ "")
    (hok : sigOk txId s (sigOf s) = true)
    (hM : s ∉ M) :
    multisigApprove sigOk (some repo.id) none none txId s (sigOf s) s now
        (scenarioDB P O repo (pushAfter push now M.length) (sigRowsFor push.id sigOf M)) =
      (.ok ⟨(pushAfter push now (M.length + 1)).status, M.length + 1,
          push.approvalsRequired⟩,
       scenarioDB P O repo (pushAfter push now (M.length + 1))
         (sigRowsFor push.id sigOf (M ++ [s]))) := by
  have hfindrepo : findRepoById repo.id [repo] = some repo := by
    simp [findRepoById]
  have hfindpush : List.find? (fun m => m.repoId == repo.id && m.pushTx == txId)
      [pushAfter push now M.length] = some (pushAfter push now M.length) := by
    simp [List.find?_cons, pushAfter, hpr, hpt]
  have hnosig : (sigRowsFor push.id sigOf M).any
      (fun r => r.multisigPushId == push.id && r.signer == s) = false := by
    rw [sigRowsFor_any_eq]
    rw [List.any_eq_false]
    intro x hx
    simp only [beq_iff_eq]
    intro hxs
    exact hM (hxs ▸ hx)
  have hsigs : sigRowsFor push.id sigOf M ++ [⟨s, push.id, s, sigOf s⟩]
      = sigRowsFor push.id sigOf (M ++ [s]) := by
    simp [sigRowsFor]
  have hcnt : ((sigRowsFor push.id sigOf (M ++ [s])).filter
      (fun r => r.multisigPushId == push.id)).length = M.length + 1 := by
    rw [sigRowsFor_filter_len]
    simp
  unfold multisigApprove approveTx
  rw [if_neg htx, if_neg hsne, if_neg hsigne]
  simp only [scenarioDB, if_neg hrid, hfindrepo, hmulti, not_true, if_false, hs, hok,
    hfindpush, show (pushAfter push now M.length).id = push.id from rfl, hnosig,
    Bool.false_eq_true, ite_false, ite_true, hsigs, hcnt, List.map_cons, List.map_nil,
    beq_self_eq_true, if_true]
  cases push with
  | mk pid prid ptx pbr pst preq pcnt pat =>
    simp only [pushAfter]
    push_cast
    split_ifs <;> first | rfl | omega | simp_all

/-- Folding a list of distinct, authorized, correctly-signing signers
through the approval endpoint advances the scenario state by the
whole list. -/
theorem approveSeq_scenario
    (sigOk : String → String → String → Bool) (P : List Payment) (O : List OtpToken)
    (repo : Repo) (push : MultisigPush) (txId : String) (sigOf : String → String)
    (now : Nat)
    (hrid : repo.id ≠ "") (htx : txId ≠ "")
    (hmulti : repo.isMultisig = true)
    (hpr : push.repoId = repo.id) (hpt : push.pushTx = txId) :
    ∀ (L M : List String), (M ++ L).Nodup →
      (∀ s ∈ L, s ∈ repo.signers ∧ s ≠ "" ∧ sigOf s ≠ "" ∧ sigOk txId s (sigOf s) = true) →
      approveSeq sigOk repo.id txId sigOf now L
          (scenarioDB P O repo (pushAfter push now M.length) (sigRowsFor push.id sigOf M))
        = scenarioDB P O repo (pushAfter push now (M ++ L).length)
            (sigRowsFor push.id sigOf (M ++ L)) := by
  intro L
  induction L with
  | nil =>
    intro M hnd hall
    simp [approveSeq]
  | cons s rest ih =>
    intro M hnd hall
    have hM : s ∉ M := by
      rcases List.nodup_append.mp hnd with ⟨-, -, hdis⟩
      exact fun hsM => hdis hsM (List.mem_cons_self s rest)
    obtain ⟨hs, hsne, hsigne, hok⟩ := hall s (List.mem_cons_self s rest)
    rw [approveSeq, approve_step_scenario sigOk P O repo push txId sigOf now M s
      hrid htx hmulti hpr hpt hs hsne hsigne hok hM]
    dsimp only
    have hnd2 : ((M ++ [s]) ++ rest).Nodup := by
      rw [← List.append_cons]
      exact hnd
    have := ih (M ++ [s]) hnd2 (fun t ht => hall t (List.mem_cons_of_mem s ht))
    rw [show M.length + 1 = (M ++ [s]).length by simp]
    rw [this, ← List.append_cons]

/-- C5: starting from a pending approval request with requirement `k`
and no stored signatures, submitting one valid approval per signer
for any duplicate-free list of authorized signers leaves the request
approved — with approved-at stamped and the recomputed count equal to
the list length — exactly when the list reaches length `k`, and still
pending (approved-at unset) when it is shorter; since this holds for
every such list, the outcome is independent of submission order, and
the count always equals the number of stored signature rows. -/
theorem multisigApprove_quorum
    (sigOk : String → String → String → Bool) (P : List Payment) (O : List OtpToken)
    (repo : Repo) (push : MultisigPush) (txId : String) (sigOf : String → String)
    (now : Nat) (L : List String)
    (hrid : repo.id ≠ "") (htx : txId ≠ "")
    (hmulti : repo.isMultisig = true)
    (hpr : push.repoId = repo.id) (hpt : push.pushTx = txId)
    (hk : 1 ≤ push.approvalsRequired)
    (hst : push.status = "pending") (hc0 : push.approvalsCount = 0)
    (ha0 : push.approvedAt = none)
    (hnd : L.Nodup)
    (hall : ∀ s ∈ L, s ∈ repo.signers ∧ s ≠ "" ∧ sigOf s ≠ ""
      ∧ sigOk txId s (sigOf s) = true) :
    approveSeq sigOk repo.id txId sigOf now L (scenarioDB P O repo push [])
      = scenarioDB P O repo (pushAfter push now L.length) (sigRowsFor push.id sigOf L)
    ∧ (pushAfter push now L.length).status
        = (if push.approvalsRequired ≤ (L.length : Int) then "approved" else "pending")
    ∧ (pushAfter push now L.length).approvedAt
        = (if push.approvalsRequired ≤ (L.length : Int) then some now else none)
    ∧ (pushAfter push now L.length).approvalsCount = (L.length : Int) := by
  refine ⟨?_, rfl, rfl, rfl⟩
  have h1 : pushAfter push now 0 = push := by
    cases push with
    | mk pid prid ptx pbr pst preq pcnt pat =>
      simp only [pushAfter]
      dsimp only
      dsimp only at hk
      rw [if_neg (by push_cast; omega), if_neg (by push_cast; omega)]
      simp_all
  have h2 := approveSeq_scenario sigOk P O repo push txId sigOf now hrid htx hmulti hpr hpt
    L [] (by simpa using hnd) hall
  simp only [List.nil_append, List.length_nil] at h2
  rw [show sigRowsFor push.id sigOf [] = [] from rfl] at h2
  rw [h1] at h2
  exact h2

/-- Witness for C5: with threshold 2, signers A then B approve a
concrete push; afterwards it is approved with count 2 and approved-at
stamped. -/
theorem multisigApprove_quorum_witness :
    approveSeq (fun _ _ _ => true) "r1" "txp" (fun s => s) 9 ["A", "B"]
        (scenarioDB [] [] ⟨"r1", "repo", "alice", false, true, some 2, ["A", "B", "C"], none⟩
          ⟨"p1", "r1", "txp", none, "pending", 2, 0, none⟩ [])
      = scenarioDB [] [] ⟨"r1", "repo", "alice", false, true, some 2, ["A", "B", "C"], none⟩
          ⟨"p1", "r1", "txp", none, "approved", 2, 2, some 9⟩
          [⟨"A", "p1", "A", "A"⟩, ⟨"B", "p1", "B", "B"⟩] := by
  have h := multisigApprove_quorum (fun _ _ _ => true) [] []
    ⟨"r1", "repo", "alice", false, true, some 2, ["A", "B", "C"], none⟩
    ⟨"p1", "r1", "txp", none, "pending", 2, 0, none⟩ "txp" (fun s => s) 9 ["A", "B"]
    (by decide) (by decide) rfl rfl rfl (by decide) rfl rfl rfl (by decide) (by decide)
  exact h.1

/-- C6: from the scenario state in which signer `s` has not signed
yet, an `Approve` call by `s` succeeds; from the state in which `s`'s
signature row is stored, a second `Approve` call by `s` (with any
signature payload and timestamp) hits the `(request, signer)` unique
constraint at signature insertion, is answered
`signature_already_submitted`, and leaves the state — the stored
approval count and the request's status included — unchanged. -/
theorem multisigApprove_duplicate_signer
    (sigOk : String → String → String → Bool) (P : List Payment) (O : List OtpToken)
    (repo : Repo) (push : MultisigPush) (txId : String) (sigOf : String → String)
    (now now2 : Nat) (M : List String) (s sig2 newId2 : String)
    (hrid : repo.id ≠ "") (htx : txId ≠ "")
    (hmulti : repo.isMultisig = true)
    (hpr : push.repoId = repo.id) (hpt : push.pushTx = txId)
    (hs : s ∈ repo.signers) (hsne : s ≠ "") (hsigne : sigOf s ≠ "")
    (hok : sigOk txId s (sigOf s) = true)
    (hsig2 : sig2 ≠ "") (hok2 : sigOk txId s sig2 = true)
    (hM : s ∉ M) :
    (multisigApprove sigOk (some repo.id) none none txId s (sigOf s) s now
        (scenarioDB P O repo (pushAfter push now M.length) (sigRowsFor push.id sigOf M))).1
      = .ok ⟨(pushAfter push now (M.length + 1)).status, M.length + 1,
          push.approvalsRequired⟩
    ∧ multisigApprove sigOk (some repo.id) none none txId s sig2 newId2 now2
        (scenarioDB P O repo (pushAfter push now (M.length + 1))
          (sigRowsFor push.id sigOf (M ++ [s])))
      = (.error "signature_already_submitted",
         scenarioDB P O repo (pushAfter push now (M.length + 1))
           (sigRowsFor push.id sigOf (M ++ [s]))) := by
  constructor
  · rw [approve_step_scenario sigOk P O repo push txId sigOf now M s
      hrid htx hmulti hpr hpt hs hsne hsigne hok hM]
  · have hfindrepo : findRepoById repo.id [repo] = some repo := by
      simp [findRepoById]
    have hfindpush : List.find? (fun m => m.repoId == repo.id && m.pushTx == txId)
        [pushAfter push now (M.length + 1)] = some (pushAfter push now (M.length + 1)) := by
      simp [List.find?_cons, pushAfter, hpr, hpt]
    have hdup : (sigRowsFor push.id sigOf (M ++ [s])).any
        (fun r => r.multisigPushId == push.id && r.signer == s) = true := by
      rw [sigRowsFor_any_eq]
      simp
    unfold multisigApprove approveTx
    rw [if_neg htx, if_neg hsne, if_neg hsig2]
    simp only [scenarioDB, if_neg hrid, hfindrepo, hmulti, not_true, if_false, hs, hok2,
      hfindpush, show (pushAfter push now (M.length + 1)).id = push.id from rfl, hdup,
      ite_true, ite_false]

/-- Witness for C6: signer A approves a concrete push, then A's
second submission is rejected and the state is unchanged. -/
theorem multisigApprove_duplicate_signer_witness :
    (multisigApprove (fun _ _ _ => true) (some "r1") none none "txp" "A" "A" "A" 9
        (scenarioDB [] [] ⟨"r1", "repo", "alice", false, true, some 2, ["A", "B", "C"], none⟩
          ⟨"p1", "r1", "txp", none, "pending", 2, 0, none⟩ [])).1
      = .ok ⟨"pending", 1, 2⟩
    ∧ multisigApprove (fun _ _ _ => true) (some "r1") none none "txp" "A" "A2" "n2" 11
        (scenarioDB [] [] ⟨"r1", "repo", "alice", false, true, some 2, ["A", "B", "C"], none⟩
          ⟨"p1", "r1", "txp", none, "pending", 2, 1, none⟩ [⟨"A", "p1", "A", "A"⟩])
      = (.error "signature_already_submitted",
         scenarioDB [] [] ⟨"r1", "repo", "alice", false, true, some 2, ["A", "B", "C"], none⟩
           ⟨"p1", "r1", "txp", none, "pending", 2, 1, none⟩ [⟨"A", "p1", "A", "A"⟩]) := by
  have h := multisigApprove_duplicate_signer (fun _ _ _ => true) [] []
    ⟨"r1", "repo", "alice", false, true, some 2, ["A", "B", "C"], none⟩
    ⟨"p1", "r1", "txp", none, "pending", 2, 0, none⟩ "txp" (fun s => s) 9 11 []
    "A" "A2" "n2" (by decide) (by decide) rfl rfl rfl (by decide) (by decide) (by decide)
    rfl (by decide) rfl (by decide)
  exact ⟨h.1, h.2⟩

/-- `ensureMultisigEntry` only touches the `multisig_pushes` table. -/
theorem ensureMultisigEntry_payments (r : Option Repo) (p : String) (br : Option String)
    (i : String) (db : DB) : (ensureMultisigEntry r p br i db).2.payments = db.payments := by
  simp only [ensureMultisigEntry]
  repeat' split
  all_goals rfl

/-- C3 (code bug): `POST /multisig/setup` never consumes the payment:
it leaves the `payments` table — in particular every consumed-at —
exactly as it found it, for every request and state; concretely, a
first setup against a confirmed, unconsumed `multisig_setup` payment
succeeds without setting consumed-at, and a second setup with the
same payment transaction hash succeeds again instead of failing
`payment_already_consumed`. -/
theorem multisigSetup_never_consumes :
    (∀ (req : SetupReq) (a b : String) (db : DB),
        ((multisigSetup req a b db).2).payments = db.payments)
    ∧ (multisigSetup ⟨none, some "alice", some "repo", "push1", .arr [some "A", some "B"],
          none, "tx2"⟩ "r1" "m1"
        ⟨[⟨"pay2", "tx2", some "alice", "multisig_setup", 10, "confirmed", none, none⟩],
         [], [], [], []⟩).1
      = .ok ⟨some ⟨"r1", "repo", "alice", false, true, some 1, ["A", "B"], some "tx2"⟩,
          some ⟨"pending", 1, 0⟩⟩
    ∧ (multisigSetup ⟨none, some "alice", some "repo", "push1", .arr [some "A", some "B"],
          none, "tx2"⟩ "r2" "m2"
        (multisigSetup ⟨none, some "alice", some "repo", "push1", .arr [some "A", some "B"],
            none, "tx2"⟩ "r1" "m1"
          ⟨[⟨"pay2", "tx2", some "alice", "multisig_setup", 10, "confirmed", none, none⟩],
           [], [], [], []⟩).2).1
      = .ok ⟨some ⟨"r1", "repo", "alice", false, true, some 1, ["A", "B"], some "tx2"⟩,
          some ⟨"pending", 1, 0⟩⟩
    ∧ ((multisigSetup ⟨none, some "alice", some "repo", "push1", .arr [some "A", some "B"],
          none, "tx2"⟩ "r2" "m2"
        (multisigSetup ⟨none, some "alice", some "repo", "push1", .arr [some "A", some "B"],
            none, "tx2"⟩ "r1" "m1"
          ⟨[⟨"pay2", "tx2", some "alice", "multisig_setup", 10, "confirmed", none, none⟩],
           [], [], [], []⟩).2).2).payments
      = [⟨"pay2", "tx2", some "alice", "multisig_setup", 10, "confirmed", none, none⟩] := by
  refine ⟨?_, rfl, rfl, rfl⟩
  intro req a b db
  simp only [multisigSetup]
  repeat' split
  all_goals first | rfl | simp [ensureMultisigEntry_payments]

end Permagit

